import Mathlib

/-!
Verification of the credential-acquisition core of the kiro-auto-register
repository: the AWS SSO OIDC device-authorization polling loop
(src/services/aws_sso_oidc.py), the Kiro web-portal OAuth client
(src/services/kiro_oauth.py), and the account bundle assembly and
persistence (src/runners/main.py).
-/

namespace KiroReg

/-- Classification of one call to `AWSSSOOIDCClient.poll_device_token`
(src/services/aws_sso_oidc.py lines 164-214): an HTTP-success body yields a
token (access_token, refresh_token, expires_in), an error body is mapped to
one of the four `DevicePollResult` cases `authorization_pending`,
`slow_down`, `expired_token`, `access_denied`. -/
inductive PollReply where
  | token (access refresh : String) (expires : Nat)
  | pending
  | slowDown
  | expired
  | denied
deriving DecidableEq

/-- Outcome of the Step-4 polling loop shared verbatim by
`perform_aws_sso_oidc_auto` (lines 700-735), `perform_aws_sso_oidc_manual`
(lines 480-517) and `perform_aws_sso_oidc_with_browser` (lines 386-423):
the returned token dict on success, or one of the three raised
exceptions (expired, denied, loop fell through = timeout). -/
inductive LoopOutcome where
  | success (access refresh : String) (expires : Nat)
  | errExpired
  | errDenied
  | errTimeout
deriving DecidableEq

/-- Body of the polling for-loop: `remaining` is the number of loop
iterations left (starts at `max_attempts`), `attempt` the current index,
`interval` the current sleep interval. `replies` is the oracle giving the
result of the poll call made on each attempt. Returns the loop outcome,
the number of `poll_device_token` calls actually made, and the list of
sleep durations performed (in order). Mirrors lines 703-735 of
src/services/aws_sso_oidc.py:

for attempt in range(max_attempts):
    token_result, poll_status = client.poll_device_token(...)
    if token_result: return {...}
    if poll_status == PENDING: time.sleep(interval)
    elif poll_status == SLOW_DOWN: interval += 5; time.sleep(interval)
    elif poll_status == EXPIRED: raise ...
    elif poll_status == DENIED: raise ...
raise Exception(timeout) -/
def pollLoopAux (replies : Nat → PollReply) :
    Nat → Nat → Nat → LoopOutcome × Nat × List Nat
  | 0, _, _ => (.errTimeout, 0, [])
  | n + 1, attempt, interval =>
    match replies attempt with
    | .token a r e => (.success a r e, 1, [])
    | .pending =>
      let rest := pollLoopAux replies n (attempt + 1) interval
      (rest.1, rest.2.1 + 1, interval :: rest.2.2)
    | .slowDown =>
      let rest := pollLoopAux replies n (attempt + 1) (interval + 5)
      (rest.1, rest.2.1 + 1, (interval + 5) :: rest.2.2)
    | .expired => (.errExpired, 1, [])
    | .denied => (.errDenied, 1, [])

/-- The polling loop of Step 4: `max_attempts = expires_in // interval`
(computed once, lines 700-701), then the loop `pollLoopAux` starting at
attempt 0 with the initial interval. -/
def devicePollLoop (expiresIn interval : Nat) (replies : Nat → PollReply) :
    LoopOutcome × Nat × List Nat :=
  pollLoopAux replies (expiresIn / interval) 0 interval

/-- Poll-call count never exceeds the remaining iteration budget. -/
theorem pollLoopAux_calls_le (replies : Nat → PollReply) :
    ∀ n attempt interval, (pollLoopAux replies n attempt interval).2.1 ≤ n := by
  intro n
  induction n with
  | zero => intro attempt interval; simp [pollLoopAux]
  | succ m ih =>
    intro attempt interval
    simp only [pollLoopAux]
    cases replies attempt with
    | token a r e => simp
    | pending => simpa using Nat.succ_le_succ (ih (attempt + 1) interval)
    | slowDown => simpa using Nat.succ_le_succ (ih (attempt + 1) (interval + 5))
    | expired => simp
    | denied => simp

/-- Under an all-slow_down oracle every iteration of the budget is consumed
and makes exactly one poll call. -/
theorem pollLoopAux_calls_slowdown (n : Nat) :
    ∀ attempt interval,
      (pollLoopAux (fun _ => PollReply.slowDown) n attempt interval).2.1 = n := by
  induction n with
  | zero => intro attempt interval; simp [pollLoopAux]
  | succ m ih =>
    intro attempt interval
    simp [pollLoopAux, ih]

/-- Under an all-pending oracle every iteration of the budget is consumed
and makes exactly one poll call. -/
theorem pollLoopAux_calls_pending (n : Nat) :
    ∀ attempt interval,
      (pollLoopAux (fun _ => PollReply.pending) n attempt interval).2.1 = n := by
  induction n with
  | zero => intro attempt interval; simp [pollLoopAux]
  | succ m ih =>
    intro attempt interval
    simp [pollLoopAux, ih]

/-- C1: in the Step-4 polling loop, the poll-result sequence
pending, pending, slow_down, token makes the loop sleep
interval, interval, interval+5 seconds after the first three calls and
return the token on the 4th call; moreover the +5 increase after slow_down
is permanent for the rest of the session (second scenario: the pending
result that follows a slow_down also sleeps interval+5). -/
theorem pollLoop_pending_pending_slowdown_token (E I : Nat) (a r : String)
    (e : Nat) (h : 4 ≤ E / I) :
    devicePollLoop E I
        (fun n => if n < 2 then .pending else if n = 2 then .slowDown
          else .token a r e)
      = (.success a r e, 4, [I, I, I + 5]) ∧
    devicePollLoop E I
        (fun n => if n = 0 then .pending else if n = 1 then .slowDown
          else if n = 2 then .pending else .token a r e)
      = (.success a r e, 4, [I, I + 5, I + 5]) := by
  obtain ⟨k, hk⟩ := Nat.exists_eq_add_of_le h
  unfold devicePollLoop
  rw [hk, Nat.add_comm 4 k]
  constructor
  · show pollLoopAux _ (k + 3 + 1) 0 I = _
    rw [pollLoopAux]; norm_num
    rw [show k + 3 = k + 2 + 1 from rfl, pollLoopAux]; norm_num
    rw [show k + 2 = k + 1 + 1 from rfl, pollLoopAux]; norm_num
    rw [pollLoopAux]; norm_num
  · show pollLoopAux _ (k + 3 + 1) 0 I = _
    rw [pollLoopAux]; norm_num
    rw [show k + 3 = k + 2 + 1 from rfl, pollLoopAux]; norm_num
    rw [show k + 2 = k + 1 + 1 from rfl, pollLoopAux]; norm_num
    rw [pollLoopAux]; norm_num

/-- Witness for C1 at expires_in = 600, interval = 5 (budget 120 ≥ 4). -/
theorem pollLoop_pending_pending_slowdown_token_witness :
    devicePollLoop 600 5
        (fun n => if n < 2 then .pending else if n = 2 then .slowDown
          else .token "at" "rt" 3600)
      = (.success "at" "rt" 3600, 4, [5, 5, 10]) ∧
    devicePollLoop 600 5
        (fun n => if n = 0 then .pending else if n = 1 then .slowDown
          else if n = 2 then .pending else .token "at" "rt" 3600)
      = (.success "at" "rt" 3600, 4, [5, 5 + 5, 5 + 5]) :=
  pollLoop_pending_pending_slowdown_token 600 5 "at" "rt" 3600 (by norm_num)

/-- C2: the polling loop makes at most expires_in // interval poll calls,
for every possible sequence of poll results; the budget is the one
computed from the initial interval before the first poll, and a session of
slow_down results (which raises the sleep interval every iteration) still
consumes exactly that same budget — it is never recomputed. -/
theorem pollLoop_budget (E I : Nat) :
    (∀ replies, (devicePollLoop E I replies).2.1 ≤ E / I) ∧
    (devicePollLoop E I (fun _ => PollReply.slowDown)).2.1 = E / I ∧
    (devicePollLoop E I (fun _ => PollReply.pending)).2.1 = E / I := by
  refine ⟨fun replies => pollLoopAux_calls_le replies _ 0 I, ?_, ?_⟩
  · exact pollLoopAux_calls_slowdown _ 0 I
  · exact pollLoopAux_calls_pending _ 0 I

/-- If the first terminal-or-token reply is the denied (resp. expired)
reply at position `k`, the loop stops there with the corresponding error
having made exactly `k + 1` poll calls. -/
theorem pollLoopAux_terminal (replies : Nat → PollReply) :
    ∀ k n attempt interval,
      (∀ j, j < k → replies (attempt + j) = .pending ∨
        replies (attempt + j) = .slowDown) →
      k < n →
      (replies (attempt + k) = .denied →
        (pollLoopAux replies n attempt interval).1 = .errDenied ∧
        (pollLoopAux replies n attempt interval).2.1 = k + 1) ∧
      (replies (attempt + k) = .expired →
        (pollLoopAux replies n attempt interval).1 = .errExpired ∧
        (pollLoopAux replies n attempt interval).2.1 = k + 1) := by
  intro k
  induction k with
  | zero =>
    intro n attempt interval _ hn
    obtain ⟨m, rfl⟩ : ∃ m, n = m + 1 := ⟨n - 1, by omega⟩
    constructor
    · intro hterm
      rw [Nat.add_zero] at hterm
      simp [pollLoopAux, hterm]
    · intro hterm
      rw [Nat.add_zero] at hterm
      simp [pollLoopAux, hterm]
  | succ j ih =>
    intro n attempt interval hpre hn
    obtain ⟨m, rfl⟩ : ∃ m, n = m + 1 := ⟨n - 1, by omega⟩
    have hpre' : ∀ i, i < j → replies (attempt + 1 + i) = .pending ∨
        replies (attempt + 1 + i) = .slowDown := by
      intro i hi
      have := hpre (i + 1) (by omega)
      rwa [show attempt + (i + 1) = attempt + 1 + i by omega] at this
    have hj : j < m := by omega
    have h0 := hpre 0 (by omega)
    rw [Nat.add_zero] at h0
    have hshift : attempt + (j + 1) = attempt + 1 + j := by omega
    rcases h0 with h0 | h0
    · constructor
      · intro hterm
        rw [hshift] at hterm
        have := (ih m (attempt + 1) interval hpre' hj).1 hterm
        simp [pollLoopAux, h0, this.1, this.2]
      · intro hterm
        rw [hshift] at hterm
        have := (ih m (attempt + 1) interval hpre' hj).2 hterm
        simp [pollLoopAux, h0, this.1, this.2]
    · constructor
      · intro hterm
        rw [hshift] at hterm
        have := (ih m (attempt + 1) (interval + 5) hpre' hj).1 hterm
        simp [pollLoopAux, h0, this.1, this.2]
      · intro hterm
        rw [hshift] at hterm
        have := (ih m (attempt + 1) (interval + 5) hpre' hj).2 hterm
        simp [pollLoopAux, h0, this.1, this.2]

/-- C5: if the poll of attempt `k` (within the budget, all earlier polls
retryable) returns access_denied, the loop raises the denied error having
made exactly `k + 1` poll calls — it never polls again for that device
code; likewise for expired_token with the expired error. -/
theorem pollLoop_terminal_stops (E I k : Nat) (replies : Nat → PollReply)
    (hpre : ∀ j, j < k → replies j = .pending ∨ replies j = .slowDown)
    (hk : k < E / I) :
    (replies k = .denied →
      (devicePollLoop E I replies).1 = .errDenied ∧
      (devicePollLoop E I replies).2.1 = k + 1) ∧
    (replies k = .expired →
      (devicePollLoop E I replies).1 = .errExpired ∧
      (devicePollLoop E I replies).2.1 = k + 1) := by
  have := pollLoopAux_terminal replies k (E / I) 0 I
    (by simpa using hpre) hk
  simpa [devicePollLoop] using this

/-- Witness for C5: with expires_in = 600, interval = 5, a pending on the
first poll and denied on the second, the loop stops with the denied
error after exactly 2 calls. -/
theorem pollLoop_terminal_stops_witness :
    (devicePollLoop 600 5
        (fun n => if n = 0 then .pending else .denied)).1
      = LoopOutcome.errDenied ∧
    (devicePollLoop 600 5
        (fun n => if n = 0 then .pending else .denied)).2.1 = 1 + 1 :=
  (pollLoop_terminal_stops 600 5 1
      (fun n => if n = 0 then .pending else .denied)
      (by intro j hj; have hj0 : j = 0 := Nat.lt_one_iff.mp hj;
          subst hj0; exact Or.inl rfl)
      (by norm_num)).1 rfl

/-- Python `x or y` for `x : Optional[str]`, `y : Optional[str]`: returns
`y` when `x` is falsy (None or the empty string), else `x`. Used at
src/services/kiro_oauth.py lines 176 and 179. -/
def pyOrOpt (a b : Option String) : Option String :=
  match a with
  | none => b
  | some s => if s = "" then b else some s

/-- Python `x or y` for `x : Optional[str]` with a plain-string fallback,
as in `returned_state or expected_state`
(src/services/kiro_oauth.py lines 281, 527). -/
def pyOrStr (a : Option String) (b : String) : String :=
  match a with
  | none => b
  | some s => if s = "" then b else s

/-- Python single-character `s.split(c)` on the character list of a
string: always returns at least one (possibly empty) part. -/
def splitOnChar (c : Char) : List Char → List (List Char)
  | [] => [[]]
  | x :: xs =>
    match splitOnChar c xs with
    | [] => [[]]
    | y :: ys => if x = c then [] :: y :: ys else (x :: y) :: ys

/-- Python `c in s` for a single character. -/
def containsChar (c : Char) (l : List Char) : Bool := l.any (· == c)

/-- Python `s.split(c, 1)`: the part before the first occurrence of `c`
and everything after it (callers guard on `containsChar` first, matching
the guard on an equals sign in the source). -/
def splitOnceChar (c : Char) : List Char → List Char × List Char
  | [] => ([], [])
  | x :: xs =>
    if x = c then ([], xs)
    else
      let r := splitOnceChar c xs
      (x :: r.1, r.2)

/-- ASCII whitespace, for Python `str.strip()` as it applies to HTTP
header text. -/
def isSpaceChar (c : Char) : Bool :=
  c == ' ' || c == '\t' || c == '\n' || c == '\r'

/-- Python `s.strip()`: drop whitespace from both ends. -/
def pyStrip (l : List Char) : List Char :=
  ((l.dropWhile isSpaceChar).reverse.dropWhile isSpaceChar).reverse

/-- Cookie parsing of `exchange_token`
(src/services/kiro_oauth.py lines 143-150): split the Set-Cookie header
on commas; for each part containing an equals sign, take the text before
the first semicolon of the stripped part, and if that still contains an
equals sign record (name before first equals, rest of the text) with
both sides stripped. -/
def parseCookieHeader (h : String) : List (String × String) :=
  (splitOnChar ',' h.data).filterMap fun part =>
    if containsChar '=' part then
      let firstAttr := (splitOnChar ';' (pyStrip part)).headD []
      if containsChar '=' firstAttr then
        let nv := splitOnceChar '=' firstAttr
        some (String.mk (pyStrip nv.1), String.mk (pyStrip nv.2))
      else none
    else none

/-- Python dict lookup where later insertions overwrite earlier ones:
the value of the last entry carrying the key, None when absent. -/
def cookiesGet (entries : List (String × String)) (k : String) :
    Option String :=
  (entries.reverse.find? fun p => p.1 == k).map (·.2)

/-- The cookie dict assembled by `exchange_token`
(lines 143-154): entries parsed from the Set-Cookie header, then the
entries of `response.cookies` (which overwrite on name collision, hence
appended after for last-wins lookup). -/
def allCookies (setCookieHeader : String)
    (jarCookies : List (String × String)) : List (String × String) :=
  parseCookieHeader setCookieHeader ++ jarCookies

/-- The HTTP response to ExchangeToken as `exchange_token` observes it:
HTTP ok flag, the raw Set-Cookie header (empty string when absent, per
per the headers-get call with empty-string default), the requests cookie jar, and
the CBOR-decoded body fields the function reads. -/
structure ExchangeResponse where
  ok : Bool
  setCookieHeader : String
  jarCookies : List (String × String)
  bodyAccessToken : Option String
  bodyCsrfToken : Option String
  bodyExpiresIn : Option Nat
  bodyProfileArn : Option String
deriving DecidableEq

/-- The dict returned by `exchange_token`
(src/services/kiro_oauth.py lines 178-186). -/
structure ExchangeResult where
  access_token : Option String
  csrf_token : Option String
  refresh_token : Option String
  session_token : Option String
  expires_in : Nat
  profile_arn : Option String
  idp : String
deriving DecidableEq

/-- `KiroOAuthClient.exchange_token` result assembly
(src/services/kiro_oauth.py lines 142-186): parse cookies, raise on
non-2xx, else build the result dict; the refresh token is
`cookies.get("RefreshToken") or cookies.get("SessionToken")` and the
access token is `resp_data.get("accessToken") or
cookies.get("AccessToken")`. -/
def exchange_token (idp : String) (resp : ExchangeResponse) :
    Except String ExchangeResult :=
  let cookies := allCookies resp.setCookieHeader resp.jarCookies
  if resp.ok then
    .ok
      { access_token :=
          pyOrOpt resp.bodyAccessToken (cookiesGet cookies "AccessToken")
        csrf_token := resp.bodyCsrfToken
        refresh_token :=
          pyOrOpt (cookiesGet cookies "RefreshToken")
            (cookiesGet cookies "SessionToken")
        session_token := cookiesGet cookies "SessionToken"
        expires_in := resp.bodyExpiresIn.getD 3600
        profile_arn := resp.bodyProfileArn
        idp := (cookiesGet cookies "Idp").getD idp }
  else
    .error "ExchangeToken failed"

/-- On an HTTP-ok response the refresh token of the exchange result is
exactly the RefreshToken-then-SessionToken cookie lookup. -/
theorem exchange_token_ok_refresh (idp : String) (resp : ExchangeResponse)
    (hok : resp.ok = true) :
    (exchange_token idp resp).toOption.map (·.refresh_token) =
      some (pyOrOpt
        (cookiesGet (allCookies resp.setCookieHeader resp.jarCookies)
          "RefreshToken")
        (cookiesGet (allCookies resp.setCookieHeader resp.jarCookies)
          "SessionToken")) := by
  simp [exchange_token, hok, Except.toOption]

/-- C4: the refresh token of an ExchangeToken result is taken only from
the Set-Cookie-derived cookie dict, checking RefreshToken first and then
SessionToken; a header containing RefreshToken=abc123 followed by
attributes yields exactly "abc123"; and when neither cookie is present
the result carries no refresh token (None) rather than an error. -/
theorem exchange_refresh_token_from_cookies :
    (∀ idp body1 body2 body4,
      (exchange_token idp
          ⟨true, "RefreshToken=abc123; Path=/", [], body1, body2, none,
            body4⟩).toOption.map (·.refresh_token)
        = some (some "abc123")) ∧
    (∀ idp resp,
      resp.ok = true →
      (exchange_token idp resp).toOption.map (·.refresh_token) =
        some (pyOrOpt
          (cookiesGet (allCookies resp.setCookieHeader resp.jarCookies)
            "RefreshToken")
          (cookiesGet (allCookies resp.setCookieHeader resp.jarCookies)
            "SessionToken"))) ∧
    (∀ idp resp,
      resp.ok = true →
      cookiesGet (allCookies resp.setCookieHeader resp.jarCookies)
        "RefreshToken" = none →
      cookiesGet (allCookies resp.setCookieHeader resp.jarCookies)
        "SessionToken" = none →
      (exchange_token idp resp).toOption.map (·.refresh_token) =
        some none) := by
  refine ⟨?_, ?_, ?_⟩
  · intro idp body1 body2 body4
    rw [exchange_token_ok_refresh _ _ rfl]
    show some (pyOrOpt
        (cookiesGet (allCookies "RefreshToken=abc123; Path=/" [])
          "RefreshToken")
        (cookiesGet (allCookies "RefreshToken=abc123; Path=/" [])
          "SessionToken")) = some (some "abc123")
    decide
  · intro idp resp hok
    exact exchange_token_ok_refresh idp resp hok
  · intro idp resp hok h1 h2
    rw [exchange_token_ok_refresh _ _ hok, h1, h2]
    rfl

/-- Witness for C4: the concrete header case, and the no-cookie case at a
response whose Set-Cookie header is empty. -/
theorem exchange_refresh_token_from_cookies_witness :
    ((exchange_token "BuilderId"
        ⟨true, "RefreshToken=abc123; Path=/", [], none, none, none,
          none⟩).toOption.map (·.refresh_token) = some (some "abc123")) ∧
    ((exchange_token "BuilderId"
        ⟨true, "", [], some "tok", none, none,
          none⟩).toOption.map (·.refresh_token) = some none) :=
  ⟨exchange_refresh_token_from_cookies.1 "BuilderId" none none none,
    exchange_refresh_token_from_cookies.2.2 "BuilderId"
      ⟨true, "", [], some "tok", none, none, none⟩ rfl (by decide)
      (by decide)⟩

/-- The fixed redirect URI of the Kiro web portal
(src/services/kiro_oauth.py line 25). -/
def KIRO_REDIRECT_URI : String := "https://app.kiro.dev/signin/oauth"

/-- Python `s[:n]` (by code points) as used in the log f-strings. -/
def pySlice (s : String) (n : Nat) : String := String.mk (s.data.take n)

/-- The arguments `perform_kiro_oauth_in_browser` passes to
`client.exchange_token` (src/services/kiro_oauth.py lines 522-528). -/
structure ExchangeRequest where
  idp : String
  code : String
  codeVerifier : String
  redirectUri : String
  state : String
deriving DecidableEq

/-- Event-level model of every print the redirect-handling step performs
(src/services/kiro_oauth.py lines 510-528 together with the prints inside
`exchange_token`, lines 134-137): the code/state prefixes shown after the
redirect is detected, the exchanging banner, and the request echo of
`exchange_token`. `noCodeFound` is the print at line 514 on a missing
code parameter. -/
inductive LogEvent where
  | codeShown (codePrefix9 : String)
  | stateShown (statePrefix9 : Option String)
  | exchanging
  | exchangeRequestShown (idp codePrefix9 statePrefix9 : String)
  | noCodeFound
deriving DecidableEq

/-- Redirect handling of `perform_kiro_oauth_in_browser`
(src/services/kiro_oauth.py lines 507-528, identical to the early-exit
copy at lines 262-288): extract `code` and `state` from the post-redirect
URL query; without a code, give up; with one, call `exchange_token` with
`state = returned_state or expected_state` (Python or-expression: the provider-returned state, falling back to the sent state only when the returned one
is None or empty). Returns the exchange request issued (none when no code
was found) together with the full list of log events emitted. -/
def handleRedirect (idp codeVerifier expected_state : String)
    (code returned_state : Option String) :
    Option ExchangeRequest × List LogEvent :=
  match code with
  | none => (none, [.noCodeFound])
  | some c =>
    let st := pyOrStr returned_state expected_state
    (some ⟨idp, c, codeVerifier, KIRO_REDIRECT_URI, st⟩,
      [.codeShown (pySlice c 30),
        .stateShown (returned_state.map (pySlice · 30)),
        .exchanging,
        .exchangeRequestShown idp (pySlice c 30) (pySlice st 30)])

/-- Counterexample to C3: with sent state S1 and provider-returned state
S2, the exchange request does use S2, but no mismatch is recorded — the
entire observable behaviour of the step (the exchange request and every log
event emitted) is identical to a run whose sent state already was S2, so
nothing the step produces reflects the comparison of sent vs returned
state. -/
theorem state_mismatch_never_recorded :
    handleRedirect "BuilderId" "ver" "S1" (some "authcode") (some "S2")
      = handleRedirect "BuilderId" "ver" "S2" (some "authcode")
          (some "S2") ∧
    (handleRedirect "BuilderId" "ver" "S1" (some "authcode")
        (some "S2")).1
      = some ⟨"BuilderId", "authcode", "ver", KIRO_REDIRECT_URI, "S2"⟩ := by
  constructor
  · decide
  · decide

/-- C3 as amended: the ExchangeToken call is made with the
provider-returned state whenever one is returned (and non-empty, per
Python truthiness), falling back to the sent state otherwise; but the
sent state is otherwise ignored — the behaviour of the step is invariant in
it, so no mismatch flag or log is ever recorded. -/
theorem exchange_uses_provider_state (idp cv exp c s : String)
    (hs : s ≠ "") :
    (handleRedirect idp cv exp (some c) (some s)).1
      = some ⟨idp, c, cv, KIRO_REDIRECT_URI, s⟩ ∧
    (∀ exp2, handleRedirect idp cv exp (some c) (some s)
      = handleRedirect idp cv exp2 (some c) (some s)) ∧
    (handleRedirect idp cv exp (some c) none).1
      = some ⟨idp, c, cv, KIRO_REDIRECT_URI, exp⟩ := by
  refine ⟨?_, ?_, rfl⟩
  · simp [handleRedirect, pyOrStr, hs]
  · intro exp2
    simp [handleRedirect, pyOrStr, hs]

/-- Witness for the amended C3 at concrete states S1 (sent) and S2
(returned). -/
theorem exchange_uses_provider_state_witness :
    (handleRedirect "BuilderId" "ver" "S1" (some "ac") (some "S2")).1
      = some ⟨"BuilderId", "ac", "ver", KIRO_REDIRECT_URI, "S2"⟩ ∧
    (∀ exp2, handleRedirect "BuilderId" "ver" "S1" (some "ac") (some "S2")
      = handleRedirect "BuilderId" "ver" exp2 (some "ac") (some "S2")) ∧
    (handleRedirect "BuilderId" "ver" "S1" (some "ac") none).1
      = some ⟨"BuilderId", "ac", "ver", KIRO_REDIRECT_URI, "S1"⟩ :=
  exchange_uses_provider_state "BuilderId" "ver" "S1" "ac" "S2"
    (by decide)

/-- Counterexample to C10: the claim says the returned access_token is
the accessToken of the body whenever that field is present; but with the field
present and equal to the empty string (Python-falsy) and an AccessToken
cookie in the jar, `exchange_token` returns the cookie value instead of
the body value. -/
theorem access_token_empty_body_falls_back :
    (exchange_token "BuilderId"
        ⟨true, "", [("AccessToken", "cookietok")], some "", none, none,
          none⟩).toOption.map (·.access_token)
      = some (some "cookietok") ∧
    some "cookietok" ≠ some "" := by
  constructor
  · decide
  · decide

/-- C10 as amended: on an ok response the access_token is the accessToken field of the
body when that is present and non-empty; when the body field is
absent it is the AccessToken cookie value (None when that cookie is also
absent); and the refresh_token prefers the RefreshToken cookie over the
SessionToken cookie whenever the RefreshToken value is non-empty. -/
theorem access_token_and_refresh_preference (idp : String)
    (resp : ExchangeResponse) (hok : resp.ok = true) :
    (∀ a, resp.bodyAccessToken = some a → a ≠ "" →
      (exchange_token idp resp).toOption.map (·.access_token)
        = some (some a)) ∧
    (resp.bodyAccessToken = none →
      (exchange_token idp resp).toOption.map (·.access_token)
        = some (cookiesGet
            (allCookies resp.setCookieHeader resp.jarCookies)
            "AccessToken")) ∧
    (∀ rv, cookiesGet (allCookies resp.setCookieHeader resp.jarCookies)
        "RefreshToken" = some rv → rv ≠ "" →
      (exchange_token idp resp).toOption.map (·.refresh_token)
        = some (some rv)) := by
  refine ⟨?_, ?_, ?_⟩
  · intro a ha hne
    simp [exchange_token, hok, Except.toOption, ha, pyOrOpt, hne]
  · intro ha
    simp [exchange_token, hok, Except.toOption, ha, pyOrOpt]
  · intro rv hrv hne
    rw [exchange_token_ok_refresh _ _ hok, hrv]
    simp [pyOrOpt, hne]

/-- Witness for the amended C10 at a response carrying both a non-empty
body accessToken and both refresh cookies. -/
theorem access_token_and_refresh_preference_witness :
    (exchange_token "BuilderId"
        ⟨true, "RefreshToken=rrr; Path=/, SessionToken=sss; Path=/",
          [], some "bodytok", none, none, none⟩).toOption.map
        (·.access_token) = some (some "bodytok") ∧
    (exchange_token "BuilderId"
        ⟨true, "RefreshToken=rrr; Path=/, SessionToken=sss; Path=/",
          [], some "bodytok", none, none, none⟩).toOption.map
        (·.refresh_token) = some (some "rrr") :=
  ⟨(access_token_and_refresh_preference "BuilderId"
        ⟨true, "RefreshToken=rrr; Path=/, SessionToken=sss; Path=/",
          [], some "bodytok", none, none, none⟩ rfl).1
      "bodytok" rfl (by decide),
    (access_token_and_refresh_preference "BuilderId"
        ⟨true, "RefreshToken=rrr; Path=/, SessionToken=sss; Path=/",
          [], some "bodytok", none, none, none⟩ rfl).2.2
      "rrr" (by decide) (by decide)⟩

/-- The success dict of `perform_aws_sso_oidc_auto`
(src/services/aws_sso_oidc.py lines 714-722): all keys always set. -/
structure AwsSsoToken where
  client_id : String
  client_secret : String
  refresh_token : String
  access_token : String
  expires_in : Nat
  region : String
  provider : String
deriving DecidableEq

/-- The kiro_* keys `save_account` copies into the record when a kiro
token dict is present (src/runners/main.py lines 52-58): each value is
`kiro_token.get(key, default)`, and since the exchange_token dict always
carries all keys, the stored value is the value of the dict itself (which may
be None). -/
structure KiroSavedFields where
  access_token : Option String
  csrf_token : Option String
  refresh_token : Option String
  expires_in : Nat
  profile_arn : Option String
deriving DecidableEq

/-- The aws_sso_* keys `save_account` copies into the record when an AWS
SSO token dict is present (src/runners/main.py lines 61-68); the source
dict always carries all of these keys as plain strings. Note expires_in
is not persisted. -/
structure AwsSavedFields where
  refresh_token : String
  client_id : String
  client_secret : String
  access_token : String
  region : String
  provider : String
deriving DecidableEq

/-- One persisted record of accounts.json as `save_account` builds it
(src/runners/main.py lines 42-68): six base keys always present, the
kiro_* keys present exactly when a kiro token dict was passed, the
aws_sso_* keys present exactly when an AWS SSO token dict was passed. -/
structure Account where
  email : String
  password : String
  name : String
  jwt_token : String
  created_at : String
  status : String
  kiro : Option KiroSavedFields
  aws : Option AwsSavedFields
deriving DecidableEq

/-- Record assembly of `save_account` (src/runners/main.py lines 42-68):
status starts as "registered", is overwritten to "kiro_authorized" when a
kiro token dict is present (a non-empty dict, hence truthy), and then to
"aws_sso_authorized" when an AWS SSO token dict is present. -/
def mkAccountInfo (email password name jwt_token created_at : String)
    (kiro_token : Option ExchangeResult)
    (aws_sso_token : Option AwsSsoToken) : Account :=
  let status0 := "registered"
  let status1 := match kiro_token with
    | some _ => "kiro_authorized"
    | none => status0
  let status2 := match aws_sso_token with
    | some _ => "aws_sso_authorized"
    | none => status1
  { email, password, name, jwt_token, created_at
    status := status2
    kiro := kiro_token.map fun k =>
      ⟨k.access_token, k.csrf_token, k.refresh_token, k.expires_in,
        k.profile_arn⟩
    aws := aws_sso_token.map fun a =>
      ⟨a.refresh_token, a.client_id, a.client_secret, a.access_token,
        a.region, a.provider⟩ }

/-- Persistence of `save_account` (src/runners/main.py lines 70-84):
read the whole existing collection, append the new record, write the
whole collection back. -/
def save_account (store : List Account)
    (email password name jwt_token created_at : String)
    (kiro_token : Option ExchangeResult)
    (aws_sso_token : Option AwsSsoToken) : List Account :=
  store ++ [mkAccountInfo email password name jwt_token created_at
    kiro_token aws_sso_token]

/-- The credential phase of `run` (src/runners/main.py lines 901-947):
the kiro sub-flow runs inside its own try/except (an exception leaves
kiro_token = None; `perform_kiro_oauth_in_browser` may also itself
return None); then, regardless of that outcome, the AWS SSO sub-flow runs
inside its own try/except (an exception leaves aws_sso_token = None);
then `save_account` is called unconditionally with whatever was
obtained. Each sub-flow outcome is an oracle input: an exception message
or its return value. -/
def runCredentialPhase (store : List Account)
    (email password name jwt_token created_at : String)
    (kiroFlow : Except String (Option ExchangeResult))
    (awsFlow : Except String AwsSsoToken) : List Account :=
  let kiro_token : Option ExchangeResult := match kiroFlow with
    | .ok t => t
    | .error _ => none
  let aws_sso_token : Option AwsSsoToken := match awsFlow with
    | .ok t => some t
    | .error _ => none
  save_account store email password name jwt_token created_at
    kiro_token aws_sso_token

/-- C6: whatever the two sub-flow outcomes are — including an exception
in either or both — exactly one bundle is appended to the persisted
collection; an error in the web-portal (kiro) sub-flow does not prevent
the device-flow (AWS SSO) result from being obtained and recorded, and
vice versa; and with both failing a bundle is still persisted with no
token sets. -/
theorem subflow_errors_isolated (store : List Account)
    (e p n j c : String) :
    (∀ kf af, ∃ acc,
      runCredentialPhase store e p n j c kf af = store ++ [acc]) ∧
    (∀ msg a, runCredentialPhase store e p n j c (.error msg) (.ok a)
      = store ++ [mkAccountInfo e p n j c none (some a)]) ∧
    (∀ k msg, runCredentialPhase store e p n j c (.ok (some k))
        (.error msg)
      = store ++ [mkAccountInfo e p n j c (some k) none]) ∧
    (∀ msg msg2, runCredentialPhase store e p n j c (.error msg)
        (.error msg2)
      = store ++ [mkAccountInfo e p n j c none none]) := by
  refine ⟨fun kf af => ⟨_, rfl⟩, fun msg a => rfl, fun k msg => rfl,
    fun msg msg2 => rfl⟩

/-- C7: the status of an assembled bundle follows the priority
device-flow success over web-portal success over registered-only: any
bundle with an AWS SSO token set is "aws_sso_authorized" (whether or not
a kiro set is also present), a bundle with only a kiro token set is
"kiro_authorized", and a bundle with neither is "registered". -/
theorem bundle_status_priority (e p n j c : String)
    (k : ExchangeResult) (a : AwsSsoToken) :
    (∀ kiroOpt : Option ExchangeResult,
      (mkAccountInfo e p n j c kiroOpt (some a)).status
        = "aws_sso_authorized") ∧
    (mkAccountInfo e p n j c (some k) none).status = "kiro_authorized" ∧
    (mkAccountInfo e p n j c none none).status = "registered" := by
  refine ⟨fun kiroOpt => rfl, rfl, rfl⟩

/-- C8: saving is append-only — two saves with identical inputs append
two separate identical records (the second does not update or replace
the first), and every previously persisted record is unchanged by a
save: the old collection is a prefix of the new one. -/
theorem save_account_append_only (store : List Account)
    (e p n j c : String) (k : Option ExchangeResult)
    (a : Option AwsSsoToken) :
    save_account (save_account store e p n j c k a) e p n j c k a
      = store ++ [mkAccountInfo e p n j c k a,
          mkAccountInfo e p n j c k a] ∧
    (save_account store e p n j c k a).take store.length = store ∧
    save_account store e p n j c k a
      = store ++ [mkAccountInfo e p n j c k a] := by
  refine ⟨by simp [save_account], ?_, rfl⟩
  simp [save_account, List.take_left]

/-- The 64-character URL-safe base64 alphabet (RFC 4648 §5), the
alphabet of base64.urlsafe_b64encode in Python. -/
def B64URL_TABLE : List Char :=
  "ABCDEFGHIJKLMNOPQRSTUVWXYZabcdefghijklmnopqrstuvwxyz0123456789-_".data

/-- Character of the alphabet at index `i` (all uses have `i < 64`). -/
def b64char (i : Nat) : Char := B64URL_TABLE.getD i '*'

/-- Base64 encoding of a byte list, three bytes to four characters with
'=' padding on a trailing group of one or two bytes (RFC 4648, the
behaviour of base64.urlsafe_b64encode), with the bit packing written in
div/mod arithmetic over byte values. -/
def b64encodeGroups : List Nat → List Char
  | [] => []
  | [b0] => [b64char (b0 / 4), b64char (b0 % 4 * 16), '=', '=']
  | [b0, b1] =>
    [b64char (b0 / 4), b64char (b0 % 4 * 16 + b1 / 16),
      b64char (b1 % 16 * 4), '=']
  | b0 :: b1 :: b2 :: rest =>
    b64char (b0 / 4) :: b64char (b0 % 4 * 16 + b1 / 16) ::
      b64char (b1 % 16 * 4 + b2 / 64) :: b64char (b2 % 64) ::
      b64encodeGroups rest

/-- Python rstrip of the pad character. -/
def rstripEq (l : List Char) : List Char :=
  (l.reverse.dropWhile (· == '=')).reverse

/-- `KiroOAuthClient.generate_code_verifier`
(src/services/kiro_oauth.py lines 39-43): base64url-encode 32 random
bytes and strip the '=' padding. The output of secrets.token_bytes(32)
is the byte-list input; the function performs no other input-dependent
step and no failing operation. -/
def generate_code_verifier (randomBytes : List Nat) : String :=
  String.mk (rstripEq (b64encodeGroups randomBytes))

/-- The character class of ^[A-Za-z0-9_-]+$. -/
def isB64UrlChar (ch : Char) : Bool :=
  ('A' ≤ ch && ch ≤ 'Z') || ('a' ≤ ch && ch ≤ 'z') ||
    ('0' ≤ ch && ch ≤ '9') || ch == '-' || ch == '_'

/-- Every alphabet character is in the URL-safe class. -/
theorem b64char_in_class : ∀ i, i < 64 → isB64UrlChar (b64char i) = true := by
  decide

/-- Base64 encoding of a byte list whose length is 2 mod 3: the output
is a block of alphabet characters followed by exactly one '=' pad, and
the block has length 4 * (length / 3) + 3. -/
theorem b64encodeGroups_mod2 :
    ∀ bs : List Nat, bs.length % 3 = 2 → (∀ b ∈ bs, b < 256) →
      ∃ front, b64encodeGroups bs = front ++ ['='] ∧
        front.length = 4 * (bs.length / 3) + 3 ∧
        ∀ ch ∈ front, isB64UrlChar ch = true
  | [] => by intro h _; simp at h
  | [b0] => by intro h _; simp at h
  | [b0, b1] => by
    intro _ hb
    have h0 : b0 < 256 := hb b0 (by simp)
    have h1 : b1 < 256 := hb b1 (by simp)
    refine ⟨[b64char (b0 / 4), b64char (b0 % 4 * 16 + b1 / 16),
      b64char (b1 % 16 * 4)], rfl, by simp, ?_⟩
    intro ch hch
    simp only [List.mem_cons, List.not_mem_nil, or_false] at hch
    rcases hch with rfl | rfl | rfl
    · exact b64char_in_class _ (by omega)
    · exact b64char_in_class _ (by omega)
    · exact b64char_in_class _ (by omega)
  | b0 :: b1 :: b2 :: rest => by
    intro h hb
    have hrest : rest.length % 3 = 2 := by
      simp only [List.length_cons] at h
      omega
    have hbrest : ∀ b ∈ rest, b < 256 := fun b hbm => hb b (by simp [hbm])
    obtain ⟨front, hf1, hf2, hf3⟩ :=
      b64encodeGroups_mod2 rest hrest hbrest
    have h0 : b0 < 256 := hb b0 (by simp)
    have h1 : b1 < 256 := hb b1 (by simp)
    have h2 : b2 < 256 := hb b2 (by simp)
    refine ⟨b64char (b0 / 4) :: b64char (b0 % 4 * 16 + b1 / 16) ::
      b64char (b1 % 16 * 4 + b2 / 64) :: b64char (b2 % 64) :: front,
      ?_, ?_, ?_⟩
    · simp [b64encodeGroups, hf1]
    · simp only [List.length_cons, hf2]
      omega
    · intro ch hch
      simp only [List.mem_cons] at hch
      rcases hch with rfl | rfl | rfl | rfl | hmem
      · exact b64char_in_class _ (by omega)
      · exact b64char_in_class _ (by omega)
      · exact b64char_in_class _ (by omega)
      · exact b64char_in_class _ (by omega)
      · exact hf3 ch hmem

/-- Stripping '=' from a block of URL-safe characters followed by one
pad recovers exactly the block. -/
theorem rstripEq_append_pad (l : List Char)
    (hl : ∀ ch ∈ l, isB64UrlChar ch = true) :
    rstripEq (l ++ ['=']) = l := by
  have hdw : List.dropWhile (· == '=') l.reverse = l.reverse := by
    cases hrev : l.reverse with
    | nil => rfl
    | cons x xs =>
      have hx : x ∈ l := by
        rw [← List.mem_reverse, hrev]
        exact List.mem_cons_self x xs
      have hxb := hl x hx
      have hxne : (x == '=') = false := by
        refine beq_eq_false_iff_ne.mpr ?_
        intro he
        subst he
        exact absurd hxb (by decide)
      simp [List.dropWhile_cons, hxne]
  unfold rstripEq
  rw [List.reverse_append]
  simp only [List.reverse_cons, List.reverse_nil, List.nil_append,
    List.singleton_append, List.dropWhile_cons]
  simp only [beq_self_eq_true, if_true]
  rw [hdw, List.reverse_reverse]

/-- C9: for every 32-byte random input, the generated PKCE code verifier
has length exactly 43, every character matches ^[A-Za-z0-9_-]+$, and no
character is an '=' pad; `generate_code_verifier` is a total function of
the random bytes (it takes no other input and cannot fail). -/
theorem code_verifier_spec (bytes : List Nat) (hlen : bytes.length = 32)
    (hb : ∀ b ∈ bytes, b < 256) :
    (generate_code_verifier bytes).length = 43 ∧
    (∀ ch ∈ (generate_code_verifier bytes).data,
      isB64UrlChar ch = true) ∧
    (∀ ch ∈ (generate_code_verifier bytes).data, ch ≠ '=') := by
  have h2 : bytes.length % 3 = 2 := by rw [hlen]
  obtain ⟨front, hf1, hf2, hf3⟩ := b64encodeGroups_mod2 bytes h2 hb
  have hgen : generate_code_verifier bytes = String.mk front := by
    rw [generate_code_verifier, hf1, rstripEq_append_pad front hf3]
  rw [hgen]
  have hflen : front.length = 43 := by
    rw [hf2, hlen]
  refine ⟨hflen, fun ch hch => hf3 ch hch, fun ch hch he => ?_⟩
  subst he
  exact absurd (hf3 _ hch) (by decide)

/-- Witness for C9 at the all-zero 32-byte input. -/
theorem code_verifier_spec_witness :
    (List.replicate 32 0).length = 32 ∧
    (generate_code_verifier (List.replicate 32 0)).length = 43 :=
  ⟨by decide,
    (code_verifier_spec (List.replicate 32 0) (by decide) (by decide)).1⟩

end KiroReg
